import Mathlib

/-!
Verification development for the walktour core utilities
(`src/utils/tour.ts` and `src/utils/offset.ts`).

The two source files import measurement and positioning primitives from
sibling modules (`dom.ts`, `positioning.ts`, `viewport.ts`, `constants.ts`)
that the specification explicitly designates as external collaborators
("treated as fixed, correct primitives outside this spec's scope").  Those
collaborators are therefore embedded as abstract fields of an environment
structure `Env`; theorems quantify over every environment, adding only the
minimal metric hypotheses (e.g. that the distance from a point to itself is
zero) that the spec's use of the words "distance" and "area-difference"
entails.

DOM element references are embedded as natural-number identifiers wrapped in
`Option` to capture JavaScript truthiness of possibly-`undefined` element
arguments.  JavaScript numbers are idealised as rationals; the
`rerenderTolerance` argument is a `WithTop ℚ` so that the value `Infinity`
is representable (a finite quantity never strictly exceeds `⊤`, matching
`x > Infinity` being false in JavaScript).
-/

namespace Walktour

/-- DOM element references, abstracted to identifiers. -/
abbrev Elem := ℕ

/-- `Coords {x, y}` from `dom.ts` (declaration only; the measurement
functions living there are abstracted into `Env`). -/
structure Coords where
  x : ℚ
  y : ℚ
  deriving DecidableEq, Repr

/-- `Dims {width, height}` from `dom.ts`. -/
structure Dims where
  width : ℚ
  height : ℚ
  deriving DecidableEq, Repr

/-- Modelled from the spec: `OrientationCoords` is produced by the black-box
tooltip positioner in the missing `positioning.ts`; the spec describes it as
"a Coords plus an orientation/side tag".  The tag set is abstracted to `ℕ`. -/
structure OrientationCoords where
  orientation : ℕ
  coords : Coords
  deriving DecidableEq, Repr

/-- Result shape of `getEdgeFocusables` from the missing `dom.ts`: the spec
says it "returns `{start, end}` focusable elements or undefined", so both
fields are optional.  (`end` is a Lean keyword; the field is named `endE`.) -/
structure FocusRegion where
  start : Option Elem
  endE : Option Elem
  deriving DecidableEq, Repr

/-- Argument bundle of `tooltipDesync` (`tour.ts`).  It extends
`GetTooltipPositionArgs` from the missing `positioning.ts`; only the `root`,
`tooltip`, `target` and `tooltipPosition` fields are read by `tour.ts`
itself, and the remaining positioning inputs are consumed solely by the
black-box positioner, which here receives the whole bundle. -/
structure TooltipDesyncArgs where
  root : Option Elem
  tooltip : Option Elem
  target : Option Elem
  tooltipPosition : Coords
  deriving DecidableEq, Repr

/-- Abstract environment bundling the external collaborators that the spec
excludes from its scope (measurement, viewport, positioning and focusable
queries).  Arguments that the source may pass as `undefined` are `Option`s;
the collaborators' behaviour is left fully abstract. -/
structure Env where
  getElementDims : Option Elem → Dims
  getTargetPosition : Option Elem → Option Elem → Coords
  areaDiff : Dims → Option Dims → ℚ
  dist : Coords → Option Coords → ℚ
  isElementInView : Elem → Elem → Option Coords → Bool
  fitsWithin : Dims → Dims → Bool
  getViewportDims : Elem → Dims
  isForeignTarget : Elem → String → Bool
  getEdgeFocusables : Option Elem → Option Elem → Bool → FocusRegion
  getTooltipPosition : TooltipDesyncArgs → OrientationCoords
  documentBody : Elem
  documentElementScroll : Coords
  scrollOffsetOf : Elem → Coords
  getElementCoords : Elem → Coords

/-! ## Offset reconciliation (`src/utils/offset.ts`) -/

/-- `getCurrentScrollOffset` from `offset.ts`: for the document body, read
the document root element's scroll instead of the body's own. -/
def getCurrentScrollOffset (env : Env) (root : Elem) : Coords :=
  if env.documentBody = root then env.documentElementScroll
  else env.scrollOffsetOf root

/-- `addScrollOffset` from `offset.ts`. -/
def addScrollOffset (env : Env) (root : Elem) (coords : Coords) : Coords :=
  let curOffset := getCurrentScrollOffset env root
  ⟨coords.x + curOffset.x, coords.y + curOffset.y⟩

/-- `addAppropriateOffset` from `offset.ts`: returns `undefined` (here
`none`) when `coords` or `root` is missing; for a non-body root, first
subtracts the root's own coordinates before adding the scroll offset. -/
def addAppropriateOffset (env : Env) (root : Option Elem) (coords : Option Coords) :
    Option Coords :=
  match root, coords with
  | some r, some c =>
    if ¬ env.documentBody = r then
      let rootCoords := env.getElementCoords r
      some (addScrollOffset env r ⟨c.x - rootCoords.x, c.y - rootCoords.y⟩)
    else
      some (addScrollOffset env r c)
  | _, _ => none

/-- `applyCenterOffset` from `offset.ts`: the top-left corner at which a box
of size `b` must sit so that its center coincides with the center of a box
`aDims` anchored at `aCoords`. -/
def applyCenterOffset (aCoords : Coords) (aDims : Dims) (b : Dims) : Coords :=
  ⟨aCoords.x + aDims.width / 2 - b.width / 2,
   aCoords.y + aDims.height / 2 - b.height / 2⟩

/-! ## Update-decision engine (`src/utils/tour.ts`) -/

/-- Argument bundle of `targetChanged`.  `rerenderTolerance` is a JavaScript
number; `WithTop ℚ` represents `Infinity` as `⊤`. -/
structure TargetChangedArgs where
  root : Option Elem
  target : Option Elem
  targetCoords : Option Coords
  targetDims : Option Dims
  rerenderTolerance : WithTop ℚ
  deriving DecidableEq

/-- `targetChanged` from `tour.ts`: returns `false` when target, cached
coords and cached dims are all absent; returns `true` on the sync-violation
branch `(!target && targetCoords && targetDims) || (target && !targetCoords
&& !targetDims)`; otherwise measures the target live and compares area
difference and distance against the shared tolerance. -/
def targetChanged (env : Env) (a : TargetChangedArgs) : Bool :=
  if a.target = none ∧ a.targetCoords = none ∧ a.targetDims = none then
    false
  else if (a.target = none ∧ a.targetCoords ≠ none ∧ a.targetDims ≠ none) ∨
      (a.target ≠ none ∧ a.targetCoords = none ∧ a.targetDims = none) then
    true
  else
    let currentTargetSize := env.getElementDims a.target
    let currentTargetPosition := env.getTargetPosition a.root a.target
    let sizeChanged :=
      a.rerenderTolerance < ((env.areaDiff currentTargetSize a.targetDims : ℚ) : WithTop ℚ)
    let positionChanged :=
      a.rerenderTolerance < ((env.dist currentTargetPosition a.targetCoords : ℚ) : WithTop ℚ)
    decide sizeChanged || decide positionChanged

/-- `naiveShouldScroll` from `tour.ts`: scroll when the tooltip at its given
position is out of view; otherwise, when the target is out of view, scroll
iff the target fits within the viewport. -/
def naiveShouldScroll (env : Env) (root tooltip : Elem) (tooltipPosition : Coords)
    (target : Elem) : Bool :=
  if ¬ env.isElementInView root tooltip (some tooltipPosition) then
    true
  else if ¬ env.isElementInView root target none then
    env.fitsWithin (env.getElementDims (some target)) (env.getViewportDims root)
  else
    false

/-- Argument bundle of `shouldScroll`.  The optional booleans of the source
are embedded as `Bool` (JavaScript truthiness of an optional boolean);
`selector` is an optional string, whose truthiness also excludes the empty
string. -/
structure ShouldScrollArgs where
  root : Option Elem
  tooltip : Option Elem
  tooltipPosition : Coords
  target : Option Elem
  disableAutoScroll : Bool
  allowForeignTarget : Bool
  selector : Option String
  deriving DecidableEq

/-- `shouldScroll` from `tour.ts`: `false` when root, tooltip or target is
missing or auto-scroll is disabled; with `allowForeignTarget` and a truthy
selector, delegates to `!isForeignTarget(root, selector)`; otherwise falls
back to `naiveShouldScroll`. -/
def shouldScroll (env : Env) (a : ShouldScrollArgs) : Bool :=
  match a.root, a.tooltip, a.target with
  | some root, some tooltip, some target =>
    if a.disableAutoScroll then
      false
    else
      match a.selector with
      | some sel =>
        if a.allowForeignTarget ∧ sel ≠ "" then
          ! env.isForeignTarget root sel
        else
          naiveShouldScroll env root tooltip a.tooltipPosition target
      | none => naiveShouldScroll env root tooltip a.tooltipPosition target
  | _, _, _ => false

/-- `tooltipDesync` from `tour.ts`: `false` when a target exists or root or
tooltip is missing; otherwise recomputes the tooltip position through the
black-box positioner and reports whether its coords are at nonzero distance
from the currently-rendered position. -/
def tooltipDesync (env : Env) (a : TooltipDesyncArgs) : Bool :=
  match a.target, a.root, a.tooltip with
  | none, some _, some _ =>
    let newPosition := env.getTooltipPosition a
    decide (env.dist newPosition.coords (some a.tooltipPosition) ≠ 0)
  | _, _, _ => false

/-! ## Focus trap builder (`src/utils/tour.ts`) -/

/-- Modelled from the spec: `TAB_KEYCODE` lives in the missing
`constants.ts`; the spec says only the Tab key is intercepted, and the
standard key code for Tab is 9. -/
def TAB_KEYCODE : ℕ := 9

/-- A keydown event as consumed by the trap handlers: key code, shift
modifier, and the event's target element. -/
structure KeyboardEvent where
  keyCode : ℕ
  shiftKey : Bool
  target : Elem
  deriving DecidableEq, Repr

/-- Effect of a handler's `x.focus()` call: no call, a call on a present
element, or a call on an `undefined` reference (which would throw in the
browser). -/
inductive FocusCall where
  | noCall : FocusCall
  | callOn (e : Elem) : FocusCall
  | callOnAbsent : FocusCall
  deriving DecidableEq, Repr

/-- Lift the optional element a handler focuses into a `FocusCall`. -/
def mkFocusCall : Option Elem → FocusCall
  | some e => FocusCall.callOn e
  | none => FocusCall.callOnAbsent

/-- Observable action of one handler invocation: whether `preventDefault`
ran and which focus call (if any) was made. -/
structure TrapAction where
  prevented : Bool
  focus : FocusCall
  deriving DecidableEq, Repr

/-- The action of an event that falls through every branch. -/
def noAction : TrapAction := ⟨false, FocusCall.noCall⟩

/-- `FocusTrapArgs` from `tour.ts`.  `start`/`end` come from
`getEdgeFocusables` and may be absent; `beforeStart`, `afterEnd` and
`lightningRod` are optional in the source. -/
structure FocusTrapArgs where
  start : Option Elem
  endE : Option Elem
  beforeStart : Option Elem
  afterEnd : Option Elem
  lightningRod : Option Elem
  deriving DecidableEq, Repr

/-- `getFocusTrapHandler` from `tour.ts`: on Tab, Shift-Tab on `start`
focuses `beforeStart` (else `end`), Tab on `end` focuses `afterEnd` (else
`start`), and any Tab whose target is the lightning rod focuses `start`;
each with `preventDefault`.  Everything else passes through untouched. -/
def getFocusTrapHandler (args : FocusTrapArgs) (e : KeyboardEvent) : TrapAction :=
  if e.keyCode = TAB_KEYCODE then
    if e.shiftKey = true ∧ some e.target = args.start then
      ⟨true, mkFocusCall (match args.beforeStart with
        | some b => some b
        | none => args.endE)⟩
    else if e.shiftKey = false ∧ some e.target = args.endE then
      ⟨true, mkFocusCall (match args.afterEnd with
        | some aft => some aft
        | none => args.start)⟩
    else if args.lightningRod = some e.target then
      ⟨true, mkFocusCall args.start⟩
    else
      noAction
  else
    noAction

/-- Observable outcome of `setFocusTrap`: the keydown listeners attached
(element paired with the `FocusTrapArgs` of the wired handler, in attachment
order), and the removal calls the returned cleanup closure performs (`none`
models `removeEventListener` with an `undefined` handler reference, a DOM
no-op).  `cleanup = none` models returning `undefined` instead of a
closure. -/
structure FocusTrapSetup where
  attached : List (Elem × FocusTrapArgs)
  cleanup : Option (List (Elem × Option FocusTrapArgs))
  deriving DecidableEq, Repr

/-- `setFocusTrap` from `tour.ts`: bails with no listeners and no cleanup
when the tooltip container is absent; wires a target trap (chained into the
tooltip's edge focusables) only when a target is given, mask interaction is
not disabled, and the target has both edge focusables; always wires the
tooltip trap with the container as lightning rod; returns a cleanup that
removes the target listener whenever a target was given (even if the target
trap was never wired — then with an `undefined` handler) and the tooltip
listener. -/
def setFocusTrap (env : Env) (tooltipContainer target : Option Elem)
    (disableMaskInteraction : Bool) : FocusTrapSetup :=
  match tooltipContainer with
  | none => ⟨[], none⟩
  | some tc =>
    let tooltipEdge := env.getEdgeFocusables (some tc) (some tc) false
    let targetEdge := env.getEdgeFocusables none target true
    match target with
    | some tgt =>
      if disableMaskInteraction = false ∧ targetEdge.start ≠ none ∧ targetEdge.endE ≠ none then
        let targetArgs : FocusTrapArgs :=
          ⟨targetEdge.start, targetEdge.endE, tooltipEdge.endE, tooltipEdge.start, none⟩
        let tooltipArgs : FocusTrapArgs :=
          ⟨tooltipEdge.start, tooltipEdge.endE, targetEdge.endE, targetEdge.start, some tc⟩
        ⟨[(tgt, targetArgs), (tc, tooltipArgs)],
         some [(tgt, some targetArgs), (tc, some tooltipArgs)]⟩
      else
        let tooltipArgs : FocusTrapArgs :=
          ⟨tooltipEdge.start, tooltipEdge.endE, none, none, some tc⟩
        ⟨[(tc, tooltipArgs)], some [(tgt, none), (tc, some tooltipArgs)]⟩
    | none =>
      let tooltipArgs : FocusTrapArgs :=
        ⟨tooltipEdge.start, tooltipEdge.endE, none, none, some tc⟩
      ⟨[(tc, tooltipArgs)], some [(tc, some tooltipArgs)]⟩

/-- Remove the first occurrence of a registration from the listener list
(`removeEventListener` with a present handler reference). -/
def removeFirst : List (Elem × FocusTrapArgs) → Elem × FocusTrapArgs →
    List (Elem × FocusTrapArgs)
  | [], _ => []
  | x :: xs, r => if x = r then xs else x :: removeFirst xs r

/-- Run the cleanup's removal calls against the attached-listener list.  A
removal naming an `undefined` handler is a DOM no-op and never throws. -/
def runCleanup (attached : List (Elem × FocusTrapArgs))
    (removals : List (Elem × Option FocusTrapArgs)) : List (Elem × FocusTrapArgs) :=
  removals.foldl (fun acc r =>
    match r.2 with
    | none => acc
    | some h => removeFirst acc (r.1, h)) attached

/-! ## Click-to-advance (`src/utils/tour.ts`) -/

/-- Observable outcome of `setNextOnTargetClick`: the elements that received
a click listener and the element the returned detach closure removes it from
(`none` when the source returns `undefined` with nothing attached). -/
structure NextClickSetup where
  attachedClick : List Elem
  cleanup : Option Elem
  deriving DecidableEq, Repr

/-- `setNextOnTargetClick` from `tour.ts`, restricted to its listener
lifecycle: bails with nothing attached and no detach closure when the target
is absent; otherwise attaches the click handler to the target and returns a
closure removing it. -/
def setNextOnTargetClick (target : Option Elem) : NextClickSetup :=
  match target with
  | none => ⟨[], none⟩
  | some t => ⟨[t], some t⟩

/-! ## Concrete environments for instantiating the abstract collaborators -/

/-- Concrete collaborator environment: constant measurements, discrete
metrics for distance and area difference, and a positioner that shifts the
rendered position by one unit on the x axis. -/
def sampleEnv : Env where
  getElementDims := fun _ => ⟨10, 10⟩
  getTargetPosition := fun _ _ => ⟨0, 0⟩
  areaDiff := fun d od =>
    match od with
    | some d2 => if d = d2 then 0 else 1
    | none => 0
  dist := fun c oc =>
    match oc with
    | some c2 => if c = c2 then 0 else 1
    | none => 0
  isElementInView := fun _ _ _ => true
  fitsWithin := fun _ _ => true
  getViewportDims := fun _ => ⟨100, 100⟩
  isForeignTarget := fun _ _ => false
  getEdgeFocusables := fun _ _ _ => ⟨none, none⟩
  getTooltipPosition := fun a => ⟨0, ⟨a.tooltipPosition.x + 1, a.tooltipPosition.y⟩⟩
  documentBody := 0
  documentElementScroll := ⟨0, 0⟩
  scrollOffsetOf := fun _ => ⟨0, 0⟩
  getElementCoords := fun _ => ⟨0, 0⟩

/-- Environment whose focusable query yields edge focusables 0/1 inside a
tooltip container and 2/3 inside a target subtree. -/
def trapEnv : Env :=
  { sampleEnv with
    getEdgeFocusables := fun c r _ =>
      match c, r with
      | some _, some _ => ⟨some 0, some 1⟩
      | none, some _ => ⟨some 2, some 3⟩
      | _, _ => ⟨none, none⟩ }

/-- Environment whose positioner returns the currently-rendered position
unchanged but with a fresh orientation tag. -/
def centeredEnv : Env :=
  { sampleEnv with getTooltipPosition := fun a => ⟨7, a.tooltipPosition⟩ }

/-! ## Theorems -/

/-- C6: for every Coords `a`, Dims `d` and Dims `b`, the box of size `b`
placed at `applyCenterOffset a d b` has the same center point as the box of
size `d` anchored at `a`, componentwise, whether `b` is smaller or larger
than `d`. -/
theorem applyCenterOffset_center_identity (a : Coords) (d b : Dims) :
    (applyCenterOffset a d b).x + b.width / 2 = a.x + d.width / 2 ∧
    (applyCenterOffset a d b).y + b.height / 2 = a.y + d.height / 2 := by
  constructor <;> simp [applyCenterOffset]

/-- C8: every entry point given an absent required DOM reference returns a
safe default and attaches no listener: `setFocusTrap` with an absent
tooltip container attaches nothing and returns no cleanup,
`setNextOnTargetClick` with an absent target attaches no click handler, and
`addAppropriateOffset` with an absent root or coords returns `undefined`. -/
theorem absent_reference_safe_defaults :
    (∀ (env : Env) (target : Option Elem) (dmi : Bool),
      setFocusTrap env none target dmi = ⟨[], none⟩) ∧
    (setNextOnTargetClick none = ⟨[], none⟩) ∧
    (∀ (env : Env) (coords : Option Coords),
      addAppropriateOffset env none coords = none) ∧
    (∀ (env : Env) (root : Option Elem),
      addAppropriateOffset env root none = none) := by
  refine ⟨fun env target dmi => rfl, rfl, fun env coords => ?_, fun env root => ?_⟩
  · cases coords <;> rfl
  · cases root <;> rfl

/-- C5: `tooltipDesync` is `false` whenever a target is present or root or
tooltip is missing; otherwise it recomputes the tooltip position and is
`true` exactly when the distance between the freshly computed coordinate and
the currently-rendered position is nonzero — an exact, tolerance-free
comparison. -/
theorem tooltipDesync_spec (env : Env) (a : TooltipDesyncArgs) :
    (a.target ≠ none ∨ a.root = none ∨ a.tooltip = none →
      tooltipDesync env a = false) ∧
    (a.target = none → a.root ≠ none → a.tooltip ≠ none →
      (tooltipDesync env a = true ↔
        env.dist (env.getTooltipPosition a).coords (some a.tooltipPosition) ≠ 0)) := by
  obtain ⟨root, tooltip, target, pos⟩ := a
  constructor
  · rintro (h | h | h) <;>
      cases target <;> cases root <;> cases tooltip <;> simp_all [tooltipDesync]
  · intro ht hr htt
    cases target <;> cases root <;> cases tooltip <;> simp_all [tooltipDesync]

/-- Witness for C5 at concrete inputs: with a present target the predicate
is `false`; with no target it reduces to the nonzero-distance test. -/
theorem tooltipDesync_spec_witness :
    tooltipDesync sampleEnv ⟨some 0, some 1, some 2, ⟨0, 0⟩⟩ = false ∧
    (tooltipDesync sampleEnv ⟨some 0, some 1, none, ⟨5, 5⟩⟩ = true ↔
      sampleEnv.dist (sampleEnv.getTooltipPosition ⟨some 0, some 1, none, ⟨5, 5⟩⟩).coords
        (some ⟨5, 5⟩) ≠ 0) :=
  ⟨(tooltipDesync_spec sampleEnv ⟨some 0, some 1, some 2, ⟨0, 0⟩⟩).1
      (Or.inl (by decide)),
   (tooltipDesync_spec sampleEnv ⟨some 0, some 1, none, ⟨5, 5⟩⟩).2
      rfl (by decide) (by decide)⟩

/-- C10: with no target and root and tooltip present, `tooltipDesync`
depends only on the coords component of the recomputed oriented position: it
is `false` whenever the freshly computed coords equal the currently-rendered
position, whatever orientation tag the positioner returns. -/
theorem tooltipDesync_orientation_irrelevant (env : Env) (a : TooltipDesyncArgs)
    (o : ℕ) (hdist : ∀ c, env.dist c (some c) = 0)
    (ht : a.target = none) (hr : a.root ≠ none) (htt : a.tooltip ≠ none)
    (hpos : env.getTooltipPosition a = ⟨o, a.tooltipPosition⟩) :
    tooltipDesync env a = false := by
  obtain ⟨root, tooltip, target, pos⟩ := a
  cases target <;> cases root <;> cases tooltip <;>
    simp_all [tooltipDesync, hpos, hdist]

/-- Witness for C10: an environment whose positioner keeps the rendered
coordinate but reports a fresh orientation tag still yields `false`. -/
theorem tooltipDesync_orientation_irrelevant_witness :
    tooltipDesync centeredEnv ⟨some 0, some 1, none, ⟨5, 5⟩⟩ = false :=
  tooltipDesync_orientation_irrelevant centeredEnv ⟨some 0, some 1, none, ⟨5, 5⟩⟩ 7
    (fun c => by simp [centeredEnv, sampleEnv])
    rfl (by decide) (by decide) rfl

/-- C4: when the target and both cached coords and dims are present,
`targetChanged` is `true` iff the live-vs-cached area difference or the
live-vs-cached distance strictly exceeds the single shared
`rerenderTolerance`; with zero tolerance and live geometry identical to the
snapshot it is `false`; and it is `false` when target, cached coords and
cached dims are all absent. -/
theorem targetChanged_measured_spec (env : Env) (a : TargetChangedArgs) :
    (∀ t c d, a.target = some t → a.targetCoords = some c → a.targetDims = some d →
      (targetChanged env a = true ↔
        a.rerenderTolerance <
          ((env.areaDiff (env.getElementDims a.target) a.targetDims : ℚ) : WithTop ℚ) ∨
        a.rerenderTolerance <
          ((env.dist (env.getTargetPosition a.root a.target) a.targetCoords : ℚ) : WithTop ℚ))) ∧
    (∀ t c d, a.target = some t → a.targetCoords = some c → a.targetDims = some d →
      env.getElementDims a.target = d → env.getTargetPosition a.root a.target = c →
      env.areaDiff d (some d) = 0 → env.dist c (some c) = 0 →
      a.rerenderTolerance = 0 → targetChanged env a = false) ∧
    (a.target = none → a.targetCoords = none → a.targetDims = none →
      targetChanged env a = false) := by
  obtain ⟨root, target, targetCoords, targetDims, tol⟩ := a
  refine ⟨?_, ?_, ?_⟩
  · rintro t c d rfl rfl rfl
    simp [targetChanged]
  · rintro t c d rfl rfl rfl hdims hpos harea hdist rfl
    simp_all [targetChanged]
  · rintro rfl rfl rfl
    simp [targetChanged]

/-- Witness for C4: at zero tolerance with live geometry equal to the
snapshot the predicate is `false`, and with everything absent it is
`false`. -/
theorem targetChanged_measured_spec_witness :
    targetChanged sampleEnv ⟨some 0, some 1, some ⟨0, 0⟩, some ⟨10, 10⟩, 0⟩ = false ∧
    targetChanged sampleEnv ⟨some 0, none, none, none, 0⟩ = false :=
  ⟨(targetChanged_measured_spec sampleEnv
      ⟨some 0, some 1, some ⟨0, 0⟩, some ⟨10, 10⟩, 0⟩).2.1
      1 ⟨0, 0⟩ ⟨10, 10⟩ rfl rfl rfl rfl rfl (by decide) (by decide) rfl,
   (targetChanged_measured_spec sampleEnv ⟨some 0, none, none, none, 0⟩).2.2
      rfl rfl rfl⟩

/-- C1 (amended): `targetChanged` returns `true` immediately, for every
tolerance including `Infinity` and for every measurement environment, when
either the target is absent while both cached coords and cached dims are
present, or the target is present while both cached coords and cached dims
are absent.  (When the target and exactly one of the two cached values are
present, the source instead falls through to live measurement.) -/
theorem targetChanged_sync_branch_amended (env : Env) (a : TargetChangedArgs)
    (h : (a.target = none ∧ a.targetCoords ≠ none ∧ a.targetDims ≠ none) ∨
      (a.target ≠ none ∧ a.targetCoords = none ∧ a.targetDims = none)) :
    targetChanged env a = true := by
  obtain ⟨root, target, targetCoords, targetDims, tol⟩ := a
  rcases h with ⟨h1, h2, h3⟩ | ⟨h1, h2, h3⟩ <;> simp_all [targetChanged]

/-- Witness for C1 (amended): both sync-violation shapes force `true` at the
tolerance `Infinity`. -/
theorem targetChanged_sync_branch_amended_witness :
    targetChanged sampleEnv ⟨some 0, none, some ⟨1, 2⟩, some ⟨3, 4⟩, ⊤⟩ = true ∧
    targetChanged sampleEnv ⟨some 0, some 1, none, none, ⊤⟩ = true :=
  ⟨targetChanged_sync_branch_amended sampleEnv ⟨some 0, none, some ⟨1, 2⟩, some ⟨3, 4⟩, ⊤⟩
      (Or.inl ⟨rfl, by decide, by decide⟩),
   targetChanged_sync_branch_amended sampleEnv ⟨some 0, some 1, none, none, ⊤⟩
      (Or.inr ⟨by decide, rfl, rfl⟩)⟩

/-- Counterexample to C1 as stated: with the target present and the cached
coords present but the cached dims absent, exactly one of {target present,
cached coords-and-dims pair fully present} holds, yet `targetChanged` does
not return `true` immediately — it falls through to live measurement and
here evaluates to `false`. -/
theorem targetChanged_mixed_cache_counterexample :
    ((⟨some 0, some 1, some ⟨0, 0⟩, none, ((2 : ℚ) : WithTop ℚ)⟩ :
        TargetChangedArgs).target ≠ none ∧
      ¬ ((⟨some 0, some 1, some ⟨0, 0⟩, none, ((2 : ℚ) : WithTop ℚ)⟩ :
        TargetChangedArgs).targetCoords ≠ none ∧
         (⟨some 0, some 1, some ⟨0, 0⟩, none, ((2 : ℚ) : WithTop ℚ)⟩ :
        TargetChangedArgs).targetDims ≠ none)) ∧
    targetChanged sampleEnv
      ⟨some 0, some 1, some ⟨0, 0⟩, none, ((2 : ℚ) : WithTop ℚ)⟩ = false := by
  decide

/-- C2: `shouldScroll` is `false` when root, tooltip or target is missing or
auto-scroll is disabled; with `allowForeignTarget` and a (truthy) selector
it is `true` iff the target does not satisfy the foreign-target predicate,
with no geometric check; otherwise it is `true` when the tooltip at its
given position is out of view, else `true` iff the target is out of view and
the target's dims fit within the viewport dims, else `false`. -/
theorem shouldScroll_spec (env : Env) (a : ShouldScrollArgs) :
    ((a.root = none ∨ a.tooltip = none ∨ a.target = none ∨
        a.disableAutoScroll = true) → shouldScroll env a = false) ∧
    (∀ root tooltip target sel, a.root = some root → a.tooltip = some tooltip →
      a.target = some target → a.disableAutoScroll = false →
      a.allowForeignTarget = true → a.selector = some sel → sel ≠ "" →
      shouldScroll env a = ! env.isForeignTarget root sel) ∧
    (∀ root tooltip target, a.root = some root → a.tooltip = some tooltip →
      a.target = some target → a.disableAutoScroll = false →
      (a.allowForeignTarget = false ∨ a.selector = none ∨ a.selector = some "") →
      shouldScroll env a =
        (if ¬ env.isElementInView root tooltip (some a.tooltipPosition) then true
         else if ¬ env.isElementInView root target none then
           env.fitsWithin (env.getElementDims (some target)) (env.getViewportDims root)
         else false)) := by
  obtain ⟨root, tooltip, pos, target, dis, allow, sel⟩ := a
  refine ⟨?_, ?_, ?_⟩
  · rintro (h | h | h | h) <;>
      cases root <;> cases tooltip <;> cases target <;>
        simp_all [shouldScroll]
  · rintro r t tg s rfl rfl rfl rfl rfl rfl hs
    simp_all [shouldScroll]
  · rintro r t tg rfl rfl rfl rfl h
    rcases h with rfl | rfl | rfl
    · cases sel <;> simp_all [shouldScroll, naiveShouldScroll]
    · simp_all [shouldScroll, naiveShouldScroll]
    · simp_all [shouldScroll, naiveShouldScroll]

/-- Witness for C2: the disabled, foreign-target and naive branches at
concrete inputs. -/
theorem shouldScroll_spec_witness :
    shouldScroll sampleEnv ⟨some 0, some 1, ⟨0, 0⟩, some 2, true, false, none⟩ = false ∧
    shouldScroll sampleEnv
        ⟨some 0, some 1, ⟨0, 0⟩, some 2, false, true, some "sel"⟩ =
      ! sampleEnv.isForeignTarget 0 "sel" ∧
    shouldScroll sampleEnv ⟨some 0, some 1, ⟨0, 0⟩, some 2, false, false, none⟩ =
      (if ¬ sampleEnv.isElementInView 0 1 (some ⟨0, 0⟩) then true
       else if ¬ sampleEnv.isElementInView 0 2 none then
         sampleEnv.fitsWithin (sampleEnv.getElementDims (some 2))
           (sampleEnv.getViewportDims 0)
       else false) :=
  ⟨(shouldScroll_spec sampleEnv
      ⟨some 0, some 1, ⟨0, 0⟩, some 2, true, false, none⟩).1
      (Or.inr (Or.inr (Or.inr rfl))),
   (shouldScroll_spec sampleEnv
      ⟨some 0, some 1, ⟨0, 0⟩, some 2, false, true, some "sel"⟩).2.1
      0 1 2 "sel" rfl rfl rfl rfl rfl rfl (by decide),
   (shouldScroll_spec sampleEnv
      ⟨some 0, some 1, ⟨0, 0⟩, some 2, false, false, none⟩).2.2
      0 1 2 rfl rfl rfl rfl (Or.inl rfl)⟩

/-- C9: a keydown whose key is not Tab, or a Tab keydown whose event target
is none of the trap's start, end or lightning-rod elements, produces no
action from a handler built by `getFocusTrapHandler` (and hence from the
handlers `setFocusTrap` installs): no focus change and no `preventDefault`. -/
theorem getFocusTrapHandler_pass_through (args : FocusTrapArgs) (e : KeyboardEvent)
    (h : e.keyCode ≠ TAB_KEYCODE ∨
      (some e.target ≠ args.start ∧ some e.target ≠ args.endE ∧
        args.lightningRod ≠ some e.target)) :
    getFocusTrapHandler args e = noAction := by
  unfold getFocusTrapHandler
  rcases h with h | ⟨h1, h2, h3⟩
  · rw [if_neg h]
  · split_ifs <;> simp_all

/-- Witness for C9: a non-Tab keydown and a Tab keydown on an unrelated
element both pass through untouched. -/
theorem getFocusTrapHandler_pass_through_witness :
    getFocusTrapHandler ⟨some 0, some 1, none, none, some 5⟩ ⟨13, false, 0⟩ =
      noAction ∧
    getFocusTrapHandler ⟨some 0, some 1, none, none, some 5⟩ ⟨9, false, 3⟩ =
      noAction :=
  ⟨getFocusTrapHandler_pass_through ⟨some 0, some 1, none, none, some 5⟩
      ⟨13, false, 0⟩ (Or.inl (by decide)),
   getFocusTrapHandler_pass_through ⟨some 0, some 1, none, none, some 5⟩
      ⟨9, false, 3⟩ (Or.inr ⟨by decide, by decide, by decide⟩)⟩

/-- C3: with tooltip edge focusables `[A, B]`, target edge focusables
`[C, D]`, a target given and mask interaction enabled, `setFocusTrap` wires
the target trap and the tooltip trap into one ring: Shift-Tab on `A` focuses
`D`, Tab on `D` focuses `A`, Tab on `B` focuses `C`, Shift-Tab on `C`
focuses `B`, each with the default action prevented; when no target region
is chained, Tab on `B` focuses `A` and Shift-Tab on `A` focuses `B`; and any
Tab keydown whose event target is the tooltip container focuses `A`. -/
theorem setFocusTrap_ring_spec (env : Env) (tc tgt A B C D : Elem)
    (hTooltip : env.getEdgeFocusables (some tc) (some tc) false =
      ⟨some A, some B⟩)
    (hTarget : env.getEdgeFocusables none (some tgt) true = ⟨some C, some D⟩)
    (hA : tc ≠ A) (hB : tc ≠ B) :
    (setFocusTrap env (some tc) (some tgt) false).attached =
      [(tgt, ⟨some C, some D, some B, some A, none⟩),
       (tc, ⟨some A, some B, some D, some C, some tc⟩)] ∧
    getFocusTrapHandler ⟨some A, some B, some D, some C, some tc⟩
      ⟨TAB_KEYCODE, true, A⟩ = ⟨true, FocusCall.callOn D⟩ ∧
    getFocusTrapHandler ⟨some C, some D, some B, some A, none⟩
      ⟨TAB_KEYCODE, false, D⟩ = ⟨true, FocusCall.callOn A⟩ ∧
    getFocusTrapHandler ⟨some A, some B, some D, some C, some tc⟩
      ⟨TAB_KEYCODE, false, B⟩ = ⟨true, FocusCall.callOn C⟩ ∧
    getFocusTrapHandler ⟨some C, some D, some B, some A, none⟩
      ⟨TAB_KEYCODE, true, C⟩ = ⟨true, FocusCall.callOn B⟩ ∧
    (setFocusTrap env (some tc) none false).attached =
      [(tc, ⟨some A, some B, none, none, some tc⟩)] ∧
    getFocusTrapHandler ⟨some A, some B, none, none, some tc⟩
      ⟨TAB_KEYCODE, false, B⟩ = ⟨true, FocusCall.callOn A⟩ ∧
    getFocusTrapHandler ⟨some A, some B, none, none, some tc⟩
      ⟨TAB_KEYCODE, true, A⟩ = ⟨true, FocusCall.callOn B⟩ ∧
    (∀ sh, getFocusTrapHandler ⟨some A, some B, some D, some C, some tc⟩
      ⟨TAB_KEYCODE, sh, tc⟩ = ⟨true, FocusCall.callOn A⟩) := by
  refine ⟨?_, ?_, ?_, ?_, ?_, ?_, ?_, ?_, ?_⟩
  · simp [setFocusTrap, hTooltip, hTarget]
  · simp [getFocusTrapHandler, mkFocusCall]
  · simp [getFocusTrapHandler, mkFocusCall]
  · simp [getFocusTrapHandler, mkFocusCall]
  · simp [getFocusTrapHandler, mkFocusCall]
  · simp [setFocusTrap, hTooltip]
  · simp [getFocusTrapHandler, mkFocusCall]
  · simp [getFocusTrapHandler, mkFocusCall]
  · intro sh
    cases sh <;> simp [getFocusTrapHandler, mkFocusCall, hA, hB, Ne.symm hA, Ne.symm hB]

/-- Witness for C3 in a concrete environment with tooltip focusables 0/1,
target focusables 2/3, container 10 and target 11: the chained attachment
list and the Shift-Tab-on-first behavior. -/
theorem setFocusTrap_ring_spec_witness :
    (setFocusTrap trapEnv (some 10) (some 11) false).attached =
      [(11, ⟨some 2, some 3, some 1, some 0, none⟩),
       (10, ⟨some 0, some 1, some 3, some 2, some 10⟩)] ∧
    getFocusTrapHandler ⟨some 0, some 1, some 3, some 2, some 10⟩
      ⟨TAB_KEYCODE, true, 0⟩ = ⟨true, FocusCall.callOn 3⟩ :=
  ⟨(setFocusTrap_ring_spec trapEnv 10 11 0 1 2 3 rfl rfl (by decide) (by decide)).1,
   (setFocusTrap_ring_spec trapEnv 10 11 0 1 2 3 rfl rfl (by decide) (by decide)).2.1⟩

/-- C7: whenever the tooltip container is present, `setFocusTrap` returns a
cleanup whose removal calls detach exactly the listeners that were attached:
running them against the attached-listener list empties it, a removal naming
an `undefined` handler (target supplied but trap not wired) being a DOM
no-op that does not throw. -/
theorem setFocusTrap_cleanup_spec (env : Env) (tc : Elem) (target : Option Elem)
    (dmi : Bool) :
    ∃ rs, (setFocusTrap env (some tc) target dmi).cleanup = some rs ∧
      runCleanup (setFocusTrap env (some tc) target dmi).attached rs = [] := by
  cases target with
  | none => exact ⟨_, rfl, by simp [setFocusTrap, runCleanup, removeFirst]⟩
  | some tgt =>
    simp only [setFocusTrap]
    split_ifs with h
    · exact ⟨_, rfl, by simp [runCleanup, removeFirst]⟩
    · exact ⟨_, rfl, by simp [runCleanup, removeFirst]⟩

end Walktour
